import Mathlib

/-!
Verification of the phishing-mail analysis engine of `pages/mail_analysis.py`
(repository SK_module_project_2).

The analysis pipeline is shallowly embedded: each Python analysis function
becomes a Lean function over explicit state (`Results`).  Python strings are
Lean `String`s, byte strings are `List Nat` (each element a byte value),
machine integers are `Nat`/`Int`.  External library facilities that the
analysed repository merely calls (the `email` MIME parser, `urllib.parse`,
`BeautifulSoup`, `hashlib`, float formatting, the `requests` HTTP client) are
modelled at their call boundary: their outputs appear as structured fields of
the embedded `Message`/`Part`/`HtmlDoc` values or as function parameters, and
the repository's own logic on top of them is translated line by line.
-/

namespace MailAnalysis

/-! ## Generic string helpers (Python operator semantics) -/

/-- `startsWithL pat l` : does `l` begin with `pat`?  (Python `str.startswith`
on the underlying character lists.) -/
def startsWithL : List Char → List Char → Bool
  | [], _ => true
  | _ :: _, [] => false
  | a :: as, b :: bs => if a = b then startsWithL as bs else false

/-- `endsWithL pat l` : does `l` end with `pat`?  (Python `str.endswith`.) -/
def endsWithL (pat l : List Char) : Bool :=
  startsWithL pat.reverse l.reverse

/-- Python `pat in hay` substring test for strings. -/
def strContains (hay pat : String) : Bool :=
  (List.range (hay.toList.length + 1)).any (fun i => startsWithL pat.toList (hay.toList.drop i))

/-- Python `str.lower()` (ASCII approximation; the analysed strings are ASCII
or Korean, and Korean characters are case-less, so this agrees with Python). -/
def pyLower (s : String) : String := (s.toList.map Char.toLower).asString

/-- Python `str.upper()` (same ASCII approximation). -/
def pyUpper (s : String) : String := (s.toList.map Char.toUpper).asString

/-- Python `s.split(sep)` for a non-empty separator: left-to-right,
non-overlapping, keeping empty fields.  `fuel` (initialised to the input
length, an upper bound on the number of steps) makes the recursion
structural. -/
def pySplitAux (sep : List Char) : Nat → List Char → List Char → List (List Char)
  | _, [], acc => [acc.reverse]
  | 0, cs, acc => [acc.reverse ++ cs]
  | fuel + 1, c :: rest, acc =>
    if sep ≠ [] ∧ startsWithL sep (c :: rest) then
      acc.reverse :: pySplitAux sep fuel ((c :: rest).drop sep.length) []
    else pySplitAux sep fuel rest (c :: acc)

def pySplit (s sep : String) : List String :=
  (pySplitAux sep.toList s.toList.length s.toList []).map List.asString

/-- Python `sep.join(xs)`. -/
def pyJoin (sep : String) (xs : List String) : String :=
  (List.intercalate sep.toList (xs.map String.toList)).asString

/-- Python `s[:n]`. -/
def pyTake (s : String) (n : Nat) : String := (s.toList.take n).asString

/-- Python truthiness of a string (`""` is falsy). -/
def pyTruthyS (s : String) : Bool := s ≠ ""

/-- Python truthiness of an optional string (`None` and `""` falsy). -/
def pyTruthyO : Option String → Bool
  | none => false
  | some s => s ≠ ""

/-! ## Data model

`Finding` is one entry of a result category: the dictionaries
`{'item': ..., 'value': ..., 'status': ...}` appended throughout
`mail_analysis.py`.  Statuses are the literal strings used by the source
(`"info"`, `"safe"`, `"warn"`, `"danger"`). -/

structure Finding where
  item : String
  value : String
  status : String
deriving DecidableEq, Repr

/-- The `results['riskScores']` dictionary. -/
structure RiskScores where
  header : Nat
  body : Nat
  attachments : Nat
  urls : Nat
deriving DecidableEq, Repr

/-- The `results['summary']` dictionary (empty strings before
`calculate_summary` fills it). -/
structure Summary where
  totalScore : Nat
  level : String
  message : String
deriving DecidableEq, Repr

/-- The `results` accumulator created in `main` (lines 483-487). -/
structure Results where
  header : List Finding
  body : List Finding
  attachments : List Finding
  urls : List Finding
  riskScores : RiskScores
  summary : Summary
deriving DecidableEq, Repr

/-- `results` as freshly initialised in `main`. -/
def emptyResults : Results :=
  { header := [], body := [], attachments := [], urls := []
    riskScores := { header := 0, body := 0, attachments := 0, urls := 0 }
    summary := { totalScore := 0, level := "", message := "" } }

/-! ## Message model

`email.message.Message` as used by the analyzer: a list of headers
(name/value pairs, names case-insensitive, possibly repeated) and the flat
sequence of leaf MIME parts yielded by `msg.walk()` (multipart containers are
skipped by the `main` loop, so only leaves are kept).  For a `text/html` part
the `html` field holds the parsed soup of the charset-decoded payload
(modelling `payload.decode(...)` + `BeautifulSoup`, both external libraries).
-/

/-- The fields of `urllib.parse.urlparse(unquote(url))` consumed by
`analyze_url`. -/
structure UrlParts where
  scheme : String
  hostname : Option String
  path : String
  query : String
deriving DecidableEq

structure Anchor where
  /-- the raw `href` attribute string -/
  href : String
  /-- `a.get_text(strip=True)` -/
  text : String
  /-- `urlparse(unquote(href))`: `none` when `urlparse` raises; the
  `hostname` field inside is `none` when the URL has no hostname -/
  parsed : Option UrlParts
deriving DecidableEq

structure HtmlImage where
  /-- `img.get('style', '')` -/
  style : String
  /-- `img.get('width', '')` -/
  width : String
  /-- `img.get('height', '')` -/
  height : String
deriving DecidableEq

/-- An element selected by `[style*="display:none"], [style*="visibility:hidden"]`. -/
structure HiddenElem where
  /-- `el.name` -/
  tag : String
  /-- `el.get_text(strip=True)` -/
  text : String
deriving DecidableEq

/-- The BeautifulSoup queries `analyze_html_body` performs on a parsed
`text/html` payload. -/
structure HtmlDoc where
  /-- `soup.get_text(separator=' ')` -/
  textContent : String
  /-- `soup.find_all('a', href=True)` in document order -/
  anchors : List Anchor
  /-- `soup.find_all('img', src=True)` in document order -/
  images : List HtmlImage
  /-- elements matching the hidden-style selector, in document order -/
  hidden : List HiddenElem
  /-- number of `script` elements (`soup.find_all('script')`) -/
  scripts : Nat
deriving DecidableEq

def emptyDoc : HtmlDoc :=
  { textContent := "", anchors := [], images := [], hidden := [], scripts := 0 }

/-- One leaf part of `msg.walk()`. -/
structure Part where
  /-- `part.get_content_type()` -/
  contentType : String
  /-- `part.get_content_disposition()` -/
  contentDisposition : Option String
  /-- `part.get_filename()` -/
  filename : Option String
  /-- `part.get_payload(decode=True)` as bytes; `none` models `None` -/
  payload : Option (List Nat)
  /-- parsed soup of the decoded payload (meaningful for `text/html` parts) -/
  html : HtmlDoc
deriving DecidableEq

structure Message where
  headers : List (String × String)
  parts : List Part
deriving DecidableEq

/-- `msg.get(name)`: first header whose name matches case-insensitively. -/
def Message.get (m : Message) (name : String) : Option String :=
  (m.headers.find? (fun p => pyLower p.1 = pyLower name)).map (·.2)

/-- `msg.get_all(name, [])`: every matching header value, in order. -/
def Message.get_all (m : Message) (name : String) : List String :=
  (m.headers.filter (fun p => pyLower p.1 = pyLower name)).map (·.2)

/-- `email.message_from_string("")`: no headers; `walk()` yields the single
empty `text/plain` leaf. -/
def emptyMessage : Message :=
  { headers := [], parts := [{ contentType := "text/plain", contentDisposition := none,
                               filename := none, payload := none, html := emptyDoc }] }

/-! ## Helper functions of the source (lines 55-76) -/

/-- `decode_subject` (lines 55-69): `None` becomes `""`; otherwise the
RFC 2047 decoding performed by the stdlib `decode_header` is modelled as the
identity on the already-decoded header text. -/
def decode_subject : Option String → String
  | none => ""
  | some s => s

/-- Leftmost match of the regex `<([^>]+)>`: the first `<` followed by a
non-empty run of non-`>` characters and a closing `>`; returns the captured
run.  (`[^>]+` is greedy, and any shorter run is followed by a non-`>`
character, so only the maximal run can be closed by `>`.) -/
def extractAngle : List Char → Option (List Char)
  | [] => none
  | c :: rest =>
    if c = '<' then
      let inner := rest.takeWhile (· ≠ '>')
      let after := rest.drop inner.length
      if inner ≠ [] ∧ after.head? = some '>' then some inner
      else extractAngle rest
    else extractAngle rest

/-- `get_email_address` on a plain string argument (used on `from_addr`,
which is always a string): returns the bracketed address or the raw value. -/
def get_email_address_str (v : String) : String :=
  match extractAngle v.toList with
  | some inner => inner.asString
  | none => v

/-- `get_email_address` (lines 71-76): `None` propagates. -/
def get_email_address : Option String → Option String
  | none => none
  | some v => some (get_email_address_str v)

/-! ## Received-header IP extraction

`re.findall(r'\b\d{1,3}\.\d{1,3}\.\d{1,3}\.\d{1,3}\b', h)` (line 138-139).
A match needs a word boundary, four runs of digits separated by dots, and a
trailing word boundary.  Because each `\d{1,3}` of the first three groups
must be followed by `.` and the last by a non-word character, a digit run
longer than 3 can never back off to a successful match, so greedy matching
with backtracking coincides with taking maximal digit runs of length 1-3. -/

/-- `\w` (ASCII approximation of the regex word class). -/
def isWordChar (c : Char) : Bool := c.isAlphanum || c = '_'

/-- Take one `\d{1,3}` group as a maximal digit run of length 1-3. -/
def grabGroup (cs : List Char) : Option (List Char × List Char) :=
  let g := cs.takeWhile Char.isDigit
  if 1 ≤ g.length ∧ g.length ≤ 3 then some (g, cs.drop g.length) else none

/-- Expect a literal `.`. -/
def expectDot : List Char → Option (List Char)
  | '.' :: rest => some rest
  | _ => none

/-- Trailing `\b`: end of input or a non-word character next. -/
def boundaryOk : List Char → Bool
  | [] => true
  | c :: _ => !isWordChar c

/-- Try to match `\d{1,3}\.\d{1,3}\.\d{1,3}\.\d{1,3}\b` at the head of `cs`;
returns the matched characters and the remainder. -/
def matchIPAt (cs : List Char) : Option (List Char × List Char) := do
  let (g1, r1) ← grabGroup cs
  let r1 ← expectDot r1
  let (g2, r2) ← grabGroup r1
  let r2 ← expectDot r2
  let (g3, r3) ← grabGroup r2
  let r3 ← expectDot r3
  let (g4, r4) ← grabGroup r3
  if boundaryOk r4 then
    some (g1 ++ '.' :: (g2 ++ '.' :: (g3 ++ '.' :: g4)), r4)
  else none

/-- `re.findall` scan: left to right, non-overlapping; `prevWord` records
whether the previous character was a word character (so the leading `\b`
holds exactly when it is `false`).  `fuel` bounds the recursion and is
initialised to the string length, which every step strictly consumes. -/
def findIPsAux : Nat → List Char → Bool → List String
  | 0, _, _ => []
  | _ + 1, [], _ => []
  | fuel + 1, c :: rest, prevWord =>
    if !prevWord then
      match matchIPAt (c :: rest) with
      | some (m, r) => m.asString :: findIPsAux fuel r true
      | none => findIPsAux fuel rest (isWordChar c)
    else findIPsAux fuel rest (isWordChar c)

/-- All IPv4 literals of one header value, in order of discovery. -/
def findIPs (s : String) : List String :=
  findIPsAux s.toList.length s.toList false

/-! ## Authentication-Results search

`re.search(rf'{auth_type}=(\w+)', auth_results)` (line 146): leftmost
occurrence of the literal (case-sensitive) `mech=` followed by at least one
word character; the capture is the maximal word-character run. -/

/-- Leftmost token captured by `pat ++ "=" ++ (\w+)`; scanning restarts at the
next position when the literal matches but no word character follows, exactly
as the regex engine does. -/
def searchAuth (pat : List Char) : List Char → Option (List Char)
  | [] => none
  | c :: rest =>
    let tok := ((c :: rest).drop pat.length).takeWhile isWordChar
    if startsWithL pat (c :: rest) ∧ tok ≠ [] then some tok
    else searchAuth pat rest

/-- The token found for one mechanism, or `none`. -/
def authToken (mech : String) (authResults : String) : Option String :=
  (searchAuth (mech.toList ++ ['=']) authResults.toList).map List.asString

/-! ## Header analyzer (`analyze_headers`, lines 108-155)

The source appends findings to `results['header']` and adds to
`results['riskScores']['header']` in program order; the embedding computes
each heuristic's contribution as a segment `(List Finding × Nat)` and
concatenates / sums them in the same order. -/

/-- Lines 114-117: the four unconditional `info` findings. -/
def baseHeaderFindings (m : Message) : List Finding :=
  [ { item := "발신자 (From)", value := decode_subject (m.get "From"), status := "info" },
    { item := "수신자 (To)", value := decode_subject (m.get "To"), status := "info" },
    { item := "제목 (Subject)", value := decode_subject (m.get "Subject"), status := "info" },
    { item := "메일 클라이언트 (X-Mailer)", value := (m.get "X-Mailer").getD "N/A", status := "info" } ]

/-- `from_email` as computed on lines 111 and 120. -/
def fromEmail (m : Message) : String :=
  get_email_address_str (decode_subject (m.get "From"))

/-- Lines 119-124: From/Return-Path mismatch. -/
def returnPathSegment (m : Message) : List Finding × Nat :=
  let from_email := fromEmail m
  match get_email_address (m.get "Return-Path") with
  | some rp =>
    if pyTruthyS from_email ∧ pyTruthyS rp ∧ from_email ≠ rp then
      ([{ item := "From/Return-Path 불일치", value := "발신자 주소와 반송 주소가 다릅니다.",
          status := "warn" }], 15)
    else ([], 0)
  | none => ([], 0)

/-- Lines 126-130: From/Reply-To mismatch. -/
def replyToSegment (m : Message) : List Finding × Nat :=
  let from_email := fromEmail m
  match get_email_address (m.get "Reply-To") with
  | some rt =>
    if pyTruthyS from_email ∧ pyTruthyS rt ∧ from_email ≠ rt then
      ([{ item := "From/Reply-To 불일치", value := "발신자 주소와 회신 주소가 다릅니다.",
          status := "warn" }], 15)
    else ([], 0)
  | none => ([], 0)

/-- Lines 132-136: too many Received headers. -/
def receivedSegment (m : Message) : List Finding × Nat :=
  let received := m.get_all "Received"
  if received.length > 5 then
    ([{ item := "메일 서버 경로",
        value := "경유 서버가 " ++ toString received.length ++ "개로 많습니다.",
        status := "warn" }], 10)
  else ([], 0)

/-- `path_ips` of lines 138-139. -/
def pathIPs (m : Message) : List String :=
  (m.get_all "Received").flatMap findIPs

/-- Lines 140-141: route-IP listing (no score). -/
def ipSegment (m : Message) : List Finding :=
  if pathIPs m ≠ [] then
    [{ item := "경유 IP 주소", value := pyJoin " → " (pathIPs m), status := "info" }]
  else []

/-- One mechanism's finding and score delta (lines 145-155). -/
def authStep (authResults : String) (mech : String) : Finding × Nat :=
  match authToken mech authResults with
  | some tok =>
    let status := pyLower tok
    if status ≠ "pass" then
      ({ item := pyUpper mech ++ " 인증", value := "실패 (" ++ status ++ ")", status := "danger" }, 20)
    else
      ({ item := pyUpper mech ++ " 인증", value := "성공 (pass)", status := "safe" }, 0)
  | none => ({ item := pyUpper mech ++ " 인증", value := "결과 없음", status := "info" }, 0)

/-- Lines 143-155: the loop `for auth_type in ['spf', 'dkim', 'dmarc']`. -/
def authSegment (authResults : String) : List Finding × Nat :=
  ["spf", "dkim", "dmarc"].foldl
    (fun acc mech =>
      let st := authStep authResults mech
      (acc.1 ++ [st.1], acc.2 + st.2))
    ([], 0)

/-- `analyze_headers(msg, results)` (lines 108-155). -/
def analyze_headers (m : Message) (r : Results) : Results :=
  let rp := returnPathSegment m
  let rt := replyToSegment m
  let recv := receivedSegment m
  let auth := authSegment ((m.get "Authentication-Results").getD "")
  { r with
    header := r.header ++ baseHeaderFindings m ++ rp.1 ++ rt.1 ++ recv.1 ++ ipSegment m ++ auth.1
    riskScores := { r.riskScores with
      header := r.riskScores.header + rp.2 + rt.2 + recv.2 + auth.2 } }

/-! ## Risk aggregation (`calculate_summary`, lines 394-411) -/

def calculate_summary (r : Results) : Results :=
  let total_score := min 100
    (r.riskScores.header + r.riskScores.body + r.riskScores.attachments + r.riskScores.urls)
  let s : Summary :=
    if total_score ≥ 70 then
      ⟨total_score, "높음", "매우 위험한 피싱 이메일일 가능성이 높습니다. 즉시 삭제하세요."⟩
    else if total_score ≥ 40 then
      ⟨total_score, "주의", "여러 위험 요소가 발견되었습니다. 링크 클릭 및 첨부파일 실행에 각별히 주의하세요."⟩
    else if total_score ≥ 10 then
      ⟨total_score, "낮음", "일부 의심스러운 점이 있으나, 직접적인 위협은 낮아 보입니다. 주의해서 확인하세요."⟩
    else
      ⟨total_score, "안전", "특별한 위협이 탐지되지 않았습니다."⟩
  { r with summary := s }

/-! ## URL analyzer (`analyze_url`, lines 250-317) -/

/-- `re.match(r'^\d{1,3}\.\d{1,3}\.\d{1,3}\.\d{1,3}$', s)` (lines 272 and
510): four dot-separated runs of 1-3 digits spanning the whole string.
(Python `$` would also accept one trailing newline; hostnames extracted by
`urlparse` cannot contain one.) -/
def isIPv4Literal (s : String) : Bool :=
  match pySplit s "." with
  | [a, b, c, d] =>
    [a, b, c, d].all fun g =>
      1 ≤ g.toList.length && g.toList.length ≤ 3 && g.toList.all Char.isDigit
  | _ => false

/-- `re.search` for the embedded-email pattern
`[a-zA-Z0-9._%+-]+@[a-zA-Z0-9.-]+\.[a-zA-Z]{2,}` (line 293).  A match exists
iff some `@` has at least one local-part character immediately before it and,
after it, a non-empty run of domain characters followed by `.` and two
letters. -/
def isLocalChar (c : Char) : Bool :=
  c.isAlphanum || c = '.' || c = '_' || c = '%' || c = '+' || c = '-'

def isDomainChar (c : Char) : Bool :=
  c.isAlphanum || c = '.' || c = '-'

/-- Does some prefix of `cs` match `[a-zA-Z0-9.-]+\.[a-zA-Z]{2,}`? -/
def emailDomainOk (cs : List Char) : Bool :=
  (List.range cs.length).any fun k =>
    1 ≤ k && (cs.take k).all isDomainChar && cs.getD k ' ' = '.'
      && (cs.getD (k + 1) ' ').isAlpha && (cs.getD (k + 2) ' ').isAlpha

def hasEmailPattern (s : String) : Bool :=
  let cs := s.toList
  (List.range cs.length).any fun i =>
    cs.getD i ' ' = '@' && 1 ≤ i && isLocalChar (cs.getD (i - 1) ' ')
      && emailDomainOk (cs.drop (i + 1))

/-- Line 287. -/
def suspicious_tlds : List String :=
  [".guru", ".club", ".xyz", ".top", ".loan", ".work", ".click", ".link", ".biz", ".info"]

/-- Line 303. -/
def suspicious_params : List String :=
  ["redirect", "login", "token", "next", "continue", "return"]

/-- Lines 269-306: the accumulated local risk and issue list of one URL. -/
def urlRiskIssues (u : UrlParts) (hostname : String) : Nat × List String :=
  let acc : Nat × List String := (0, [])
  let acc := if isIPv4Literal hostname then (acc.1 + 40, acc.2 ++ ["IP 주소 직접 사용"]) else acc
  let acc := if u.scheme ≠ "https" then (acc.1 + 10, acc.2 ++ ["HTTPS 미사용"]) else acc
  let acc := if startsWithL "xn--".toList hostname.toList then
      (acc.1 + 30, acc.2 ++ ["Punycode 도메인"]) else acc
  let acc := if suspicious_tlds.any (fun tld => endsWithL tld.toList hostname.toList) then
      (acc.1 + 20, acc.2 ++ ["의심스러운 TLD"]) else acc
  let acc := if hasEmailPattern u.query then
      (acc.1 + 25, acc.2 ++ ["URL에 이메일 주소 포함"]) else acc
  let acc := if ((pySplit u.path "/").filter (fun p => p ≠ "")).length > 3 then
      (acc.1 + 15, acc.2 ++ ["복잡한 URL 경로 구조"]) else acc
  let acc := if suspicious_params.any (fun p => strContains u.query (p ++ "=")) then
      (acc.1 + 10, acc.2 ++ ["의심스러운 파라미터"]) else acc
  acc

/-- Lines 308-309. -/
def urlStatus (risk : Nat) : String :=
  if risk ≥ 40 then "danger" else if risk ≥ 15 then "warn" else "safe"

/-- `analyze_url(url, results)` (lines 250-317).  `url` is the raw href
string (only its truthiness is consumed); `parsed` is
`urlparse(unquote(url))`, `none` when `urlparse` raises. -/
def analyze_url (url : String) (parsed : Option UrlParts) (r : Results) : Results :=
  if ¬ pyTruthyS url then r
  else match parsed with
  | none => r
  | some u =>
    match u.hostname with
    | none => r
    | some hostname =>
      if ¬ pyTruthyS hostname then r
      else
        -- lines 264-267: the (ineffective) duplicate check compares the bare
        -- hostname against values of the form `Domain: <hostname>`
        let analyzed_domains :=
          ((r.urls.filter (fun f => strContains f.value "Domain:")).map
            (fun f => ((pySplit f.value " - ").headD "")))
        if hostname ∈ analyzed_domains then r
        else
          let ri := urlRiskIssues u hostname
          let status := urlStatus ri.1
          let details :=
            if ri.2 ≠ [] then
              "Domain: " ++ hostname ++ " - <span class=\"status-" ++ status ++ "\">(" ++
                pyJoin ", " ri.2 ++ ")</span>"
            else "Domain: " ++ hostname
          { r with
            urls := r.urls ++ [{ item := "URL 도메인", value := details, status := status }]
            riskScores := { r.riskScores with urls := r.riskScores.urls + ri.1 } }

/-! ## Body analyzer (`analyze_html_body`, lines 157-196) -/

/-- Line 50-53. -/
def SOCIAL_ENGINEERING_KEYWORDS : List String :=
  ["긴급", "경고", "계정", "잠금", "보안", "업데이트", "인증", "확인", "비밀번호",
   "만료", "로그인", "클릭", "즉시", "은행", "결제", "송장", "법적", "조치"]

/-- Python `text.replace(" ", "")`. -/
def removeSpaces (s : String) : String :=
  (s.toList.filter (fun c => c ≠ ' ')).asString

/-- Lines 168-175: one anchor's link checks followed by `analyze_url`. -/
def anchorStep (r : Results) (a : Anchor) : Results :=
  let r :=
    if pyTruthyS a.text ∧ a.href ≠ a.text ∧ ¬ strContains a.href (removeSpaces a.text) then
      { r with
        body := r.body ++
          [⟨"링크/텍스트 불일치",
            "표시(" ++ a.text ++ ")와 실제 링크(" ++ a.href ++ ")가 다릅니다.", "danger"⟩]
        riskScores := { r.riskScores with body := r.riskScores.body + 25 } }
    else r
  analyze_url a.href a.parsed r

/-- `analyze_html_body(html_content, results)` (lines 157-196), on the parsed
document. -/
def analyze_html_body (doc : HtmlDoc) (r : Results) : Results :=
  -- lines 161-166: social-engineering keywords
  let text_content := pyLower doc.textContent
  let found_keywords := SOCIAL_ENGINEERING_KEYWORDS.filter (fun kw => strContains text_content kw)
  let r :=
    if found_keywords.length > 2 then
      { r with
        body := r.body ++
          [⟨"사회 공학 키워드",
            "의심 키워드 발견: " ++ pyJoin ", " (found_keywords.take 3) ++ "...",
            "warn"⟩]
        riskScores := { r.riskScores with body := r.riskScores.body + 15 } }
    else r
  -- lines 168-175: links
  let r := doc.anchors.foldl anchorStep r
  -- lines 177-184: tracking pixels
  let r := doc.images.foldl
    (fun r img =>
      if strContains img.style "width:1px" || strContains img.style "height:1px" ||
          (img.width = "1" && img.height = "1") then
        { r with
          body := r.body ++ [⟨"추적 픽셀 의심", "1x1 크기의 숨겨진 이미지가 있습니다.", "warn"⟩]
          riskScores := { r.riskScores with body := r.riskScores.body + 10 } }
      else r) r
  -- lines 186-191: hidden content
  let r := doc.hidden.foldl
    (fun r el =>
      if pyTruthyS el.text then
        { r with
          body := r.body ++
            [⟨"숨겨진 콘텐츠", "눈에 보이지 않는 텍스트/링크가 있습니다: <" ++ el.tag ++ ">", "warn"⟩]
          riskScores := { r.riskScores with body := r.riskScores.body + 10 } }
      else r) r
  -- lines 193-196: scripts
  if doc.scripts ≠ 0 then
    { r with
      body := r.body ++ [⟨"Javascript 포함", "메일 본문에 스크립트가 포함되어 있습니다.", "warn"⟩]
      riskScores := { r.riskScores with body := r.riskScores.body + 15 } }
  else r

/-! ## Attachment analyzer (`analyze_attachment`, lines 198-248) -/

/-- Lines 36-47, in dictionary insertion order. -/
def FILE_SIGNATURES : List (String × String) :=
  [ ("application/pdf", "25504446"),
    ("application/zip", "504b0304"),
    ("application/x-msdownload", "4d5a"),
    ("application/x-ole-storage", "d0cf11e0a1b11ae1"),
    ("application/rtf", "7b5c727466"),
    ("application/vnd.rar", "526172211a07"),
    ("application/x-7z-compressed", "377abcaf271c"),
    ("image/jpeg", "ffd8ffe0"),
    ("image/png", "89504e47"),
    ("image/gif", "47494638") ]

/-- Line 208. -/
def suspicious_ext : List String :=
  [".exe", ".vbs", ".scr", ".bat", ".com", ".pif", ".js", ".cmd", ".jar"]

def hexDigitChar (n : Nat) : Char :=
  (("0123456789abcdef".toList).getD (n % 16) '0')

/-- `bytes.hex()` of a byte list (each element `< 256`; reduced mod 16 per
nibble so the function is total). -/
def bytesHex (bs : List Nat) : List Char :=
  bs.flatMap (fun b => [hexDigitChar (b / 16), hexDigitChar b])

/-- Lines 237-244: walk `FILE_SIGNATURES` in order; at the first signature
that prefixes the payload hex, report a mismatch unless the declared type
equals the expected one or the OOXML/zip exception applies, then `break`. -/
def sigMismatch : List (String × String) → List Char → String → Bool
  | [], _, _ => false
  | (mime, sig) :: rest, signature, declared =>
    if startsWithL sig.toList signature then
      if declared ≠ mime then
        if ¬ (strContains declared "openxmlformats" ∧ mime = "application/zip") then true
        else false
      else false
    else sigMismatch rest signature declared

/-- `analyze_attachment(part, results)` (lines 198-248).

`sha` models `hashlib.sha256(payload).hexdigest()` and `fmtKB` models the
float formatting `f'{len(payload)/1024:.2f} KB'` from the byte length; both
are stdlib/presentation facilities the analyzer only embeds verbatim into
`info` findings. -/
def analyze_attachment (sha : List Nat → String) (fmtKB : Nat → String)
    (p : Part) (r : Results) : Results :=
  match p.filename with
  | none => r
  | some filename =>
    if ¬ pyTruthyS filename then r
    else
      let details := "파일: " ++ filename
      let sde : String × Nat × String :=
        if suspicious_ext.any (fun ext => endsWithL ext.toList (pyLower filename).toList) then
          ("danger", 30, details ++ " (실행 파일 의심)")
        else ("info", 0, details)
      let sde :=
        if (pySplit filename ".").length > 2 then
          ((if sde.1 = "danger" then "danger" else "warn"), max sde.2.1 20,
            sde.2.2 ++ " (이중 확장자 의심)")
        else sde
      let r :=
        { r with
          attachments := r.attachments ++ [{ item := "첨부파일", value := sde.2.2, status := sde.1 }]
          riskScores := { r.riskScores with attachments := r.riskScores.attachments + sde.2.1 } }
      match p.payload with
      | none => r
      | some payload =>
        if payload = [] then r  -- `if payload:` — empty bytes are falsy
        else
          let r :=
            { r with attachments := r.attachments ++
                [{ item := "파일 크기", value := fmtKB payload.length, status := "info" },
                 { item := "파일 해시 (SHA-256)", value := sha payload, status := "info" }] }
          let signature := bytesHex (payload.take 8)
          if sigMismatch FILE_SIGNATURES signature p.contentType then
            { r with
              attachments := r.attachments ++
                [⟨"MIME 타입 불일치", "선언된 파일 형식과 실제 형식이 다를 수 있습니다.", "danger"⟩]
              riskScores := { r.riskScores with attachments := r.riskScores.attachments + 40 } }
          else r

/-! ## Reputation enrichment (lines 78-102 and 320-391)

The HTTP requests issued by `get_domain_info_from_api` /
`get_vt_report_from_api` are modelled as function parameters returning
`ApiResult`: `.err` stands for any `requests.exceptions.RequestException`
(timeout, connection failure, non-2xx raised by `raise_for_status`), which
the source catches and converts to `None`. -/

inductive ApiResult (α : Type) where
  | ok : α → ApiResult α
  | err : ApiResult α
deriving DecidableEq

/-- The JSON fields of a whois report consumed by the analyzer; a field is
`none` when the key is absent. -/
structure WhoisInfo where
  days_since_creation : Option Int
  creation_date : Option String
deriving DecidableEq

/-- The JSON fields of a VirusTotal report consumed by the analyzer. -/
structure VtReport where
  positives : Option Nat
  total : Option Nat
deriving DecidableEq

/-- `get_domain_info_from_api` (lines 78-89). -/
def get_domain_info_from_api (api : String → ApiResult WhoisInfo) (domain : String) :
    Option WhoisInfo :=
  if ¬ pyTruthyS domain then none
  else match api domain with
  | .ok w => some w
  | .err => none

/-- `get_vt_report_from_api` (lines 91-102); the `vt_key_missing` session flag
is UI-only and not part of the returned value. -/
def get_vt_report_from_api (api : String → ApiResult VtReport) (resource : String) :
    Option VtReport :=
  if ¬ pyTruthyS resource then none
  else match api resource with
  | .ok v => some v
  | .err => none

/-- The whois branch of the loop body (lines 326-342). -/
def whoisFindings (wapi : String → ApiResult WhoisInfo) (hostname : String) :
    List Finding × Nat :=
  match get_domain_info_from_api wapi hostname with
  | some w =>
    if w.days_since_creation.getD (-1) ≥ 0 then
      let days := w.days_since_creation.getD (-1)
      if days < 30 then
        ([{ item := "도메인 신뢰도 - " ++ hostname,
            value := "생성된 지 " ++ toString days ++ "일밖에 되지 않은 신생 도메인입니다.",
            status := "danger" }], 30)
      else
        ([{ item := "도메인 정보 - " ++ hostname,
            value := "생성일: " ++ pyTake (w.creation_date.getD "N/A") 10,
            status := "info" }], 0)
    else ([], 0)
  | none => ([], 0)

/-- The VirusTotal branch of the loop body (lines 344-362). -/
def vtDomainFindings (vapi : String → ApiResult VtReport) (hostname : String) :
    List Finding × Nat :=
  match get_vt_report_from_api vapi hostname with
  | some v =>
    match v.positives, v.total with
    | some positives, some total =>
      if positives > 0 then
        ([{ item := "VirusTotal 평판 - " ++ hostname,
            value := "악성/의심 탐지: " ++ toString positives ++ "/" ++ toString total ++
              " 엔진에서 위험으로 분류",
            status := "danger" }], min (positives * 10) 50)
      else if total > 0 then
        ([{ item := "VirusTotal 평판 - " ++ hostname,
            value := "검사 완료: " ++ toString total ++ "개 엔진에서 위험 요소 발견되지 않음",
            status := "safe" }], 0)
      else ([], 0)
    | _, _ => ([], 0)
  | none => ([], 0)

/-- `get_domain_reputation_findings(hostnames)` (lines 320-364). -/
def get_domain_reputation_findings (wapi : String → ApiResult WhoisInfo)
    (vapi : String → ApiResult VtReport) (hostnames : List String) :
    List Finding × Nat :=
  hostnames.foldl
    (fun acc hostname =>
      let wf := whoisFindings wapi hostname
      let vf := vtDomainFindings vapi hostname
      (acc.1 ++ wf.1 ++ vf.1, acc.2 + wf.2 + vf.2))
    ([], 0)

/-- The loop body of `get_file_reputation_findings` (lines 371-389). -/
def vtFileFindings (fapi : String → ApiResult VtReport) (file_hash : String) :
    List Finding × Nat :=
  match get_vt_report_from_api fapi file_hash with
  | some v =>
    match v.positives, v.total with
    | some positives, some total =>
      if positives > 0 then
        ([{ item := "파일 평판 - " ++ pyTake file_hash 16 ++ "...",
            value := "악성/의심 탐지: " ++ toString positives ++ "/" ++ toString total ++
              " 엔진에서 위험으로 분류",
            status := "danger" }], min (positives * 10) 50)
      else if total > 0 then
        ([{ item := "파일 평판 - " ++ pyTake file_hash 16 ++ "...",
            value := "검사 완료: " ++ toString total ++ "개 엔진에서 위험 요소 발견되지 않음",
            status := "safe" }], 0)
      else ([], 0)
    | _, _ => ([], 0)
  | none => ([], 0)

/-- `get_file_reputation_findings(hashes)` (lines 366-391). -/
def get_file_reputation_findings (fapi : String → ApiResult VtReport)
    (hashes : List String) : List Finding × Nat :=
  hashes.foldl
    (fun acc h =>
      let vf := vtFileFindings fapi h
      (acc.1 ++ vf.1, acc.2 + vf.2))
    ([], 0)

/-! ## The analysis pipeline (`main`, lines 480-528) -/

/-- The part loop of lines 491-500: attachments to `analyze_attachment`,
`text/html` leaves to `analyze_html_body` (charset decoding and soup parsing
are carried by `Part.html`). -/
def processParts (sha : List Nat → String) (fmtKB : Nat → String)
    (parts : List Part) (r : Results) : Results :=
  parts.foldl
    (fun r p =>
      if p.contentDisposition = some "attachment" then analyze_attachment sha fmtKB p r
      else if p.contentType = "text/html" then analyze_html_body p.html r
      else r) r

/-- Lines 506-511: hostnames recovered from URL findings, IP literals
excluded.  Python collects them in a `set`, whose iteration order is
unspecified; the embedding keeps first-seen order, and no proved statement
depends on the order. -/
def extract_hostnames (urls : List Finding) : List String :=
  urls.foldl
    (fun acc f =>
      if strContains f.value "Domain:" then
        let domain := (pySplit ((pySplit f.value "Domain: ").getD 1 "") " - ").headD ""
        if ¬ isIPv4Literal domain ∧ domain ∉ acc then acc ++ [domain] else acc
      else acc) []

/-- Lines 513-515: SHA-256 values recovered from attachment findings. -/
def extract_hashes (attachments : List Finding) : List String :=
  attachments.foldl
    (fun acc f =>
      if f.item = "파일 해시 (SHA-256)" then
        (if f.value ∉ acc then acc ++ [f.value] else acc)
      else acc) []

/-- The non-enrichment part of the run: header analysis plus the part loop,
from a fresh `results` (lines 483-500). -/
def analyzeBase (sha : List Nat → String) (fmtKB : Nat → String) (msg : Message) : Results :=
  processParts sha fmtKB msg.parts (analyze_headers msg emptyResults)

/-- The whole analysis of one uploaded message (lines 480-528). -/
def analyze (sha : List Nat → String) (fmtKB : Nat → String)
    (wapi : String → ApiResult WhoisInfo) (vapi : String → ApiResult VtReport)
    (fapi : String → ApiResult VtReport) (msg : Message) : Results :=
  let r := analyzeBase sha fmtKB msg
  let unique_hostnames := extract_hostnames r.urls
  let unique_hashes := extract_hashes r.attachments
  let r :=
    if unique_hostnames ≠ [] then
      let df := get_domain_reputation_findings wapi vapi unique_hostnames
      { r with urls := r.urls ++ df.1
               riskScores := { r.riskScores with urls := r.riskScores.urls + df.2 } }
    else r
  let r :=
    if unique_hashes ≠ [] then
      let ff := get_file_reputation_findings fapi unique_hashes
      { r with attachments := r.attachments ++ ff.1
               riskScores := { r.riskScores with
                 attachments := r.riskScores.attachments + ff.2 } }
    else r
  calculate_summary r

/-! ## Verification helpers: the part step and a stage view of the body
analyzer

`partStep` names the loop body of `processParts` (definitionally equal to the
inline branch), and the stage functions name the successive blocks of
`analyze_html_body`, whose sequential `let`s compose them; both equalities
hold by `rfl`. -/

/-- The branch of the `msg.walk()` loop applied to one part (lines 491-500). -/
def partStep (sha : List Nat → String) (fmtKB : Nat → String)
    (r : Results) (p : Part) : Results :=
  if p.contentDisposition = some "attachment" then analyze_attachment sha fmtKB p r
  else if p.contentType = "text/html" then analyze_html_body p.html r
  else r

/-- Lines 161-166 of `analyze_html_body`: the keyword block. -/
def keywordStage (doc : HtmlDoc) (r : Results) : Results :=
  let text_content := pyLower doc.textContent
  let found_keywords := SOCIAL_ENGINEERING_KEYWORDS.filter (fun kw => strContains text_content kw)
  if found_keywords.length > 2 then
    { r with
      body := r.body ++
        [⟨"사회 공학 키워드",
          "의심 키워드 발견: " ++ pyJoin ", " (found_keywords.take 3) ++ "...",
          "warn"⟩]
      riskScores := { r.riskScores with body := r.riskScores.body + 15 } }
  else r

/-- Lines 168-175: the anchor loop. -/
def anchorsStage (doc : HtmlDoc) (r : Results) : Results :=
  doc.anchors.foldl anchorStep r

/-- Lines 178-184: one image's tracking-pixel check. -/
def imageStep (r : Results) (img : HtmlImage) : Results :=
  if strContains img.style "width:1px" || strContains img.style "height:1px" ||
      (img.width = "1" && img.height = "1") then
    { r with
      body := r.body ++ [⟨"추적 픽셀 의심", "1x1 크기의 숨겨진 이미지가 있습니다.", "warn"⟩]
      riskScores := { r.riskScores with body := r.riskScores.body + 10 } }
  else r

/-- Lines 177-184: the image loop. -/
def imagesStage (doc : HtmlDoc) (r : Results) : Results :=
  doc.images.foldl imageStep r

/-- Lines 187-191: one hidden element's check. -/
def hiddenStep (r : Results) (el : HiddenElem) : Results :=
  if pyTruthyS el.text then
    { r with
      body := r.body ++
        [⟨"숨겨진 콘텐츠", "눈에 보이지 않는 텍스트/링크가 있습니다: <" ++ el.tag ++ ">", "warn"⟩]
      riskScores := { r.riskScores with body := r.riskScores.body + 10 } }
  else r

/-- Lines 186-191: the hidden-element loop. -/
def hiddenStage (doc : HtmlDoc) (r : Results) : Results :=
  doc.hidden.foldl hiddenStep r

/-- Lines 193-196: the script check. -/
def scriptsStage (doc : HtmlDoc) (r : Results) : Results :=
  if doc.scripts ≠ 0 then
    { r with
      body := r.body ++ [⟨"Javascript 포함", "메일 본문에 스크립트가 포함되어 있습니다.", "warn"⟩]
      riskScores := { r.riskScores with body := r.riskScores.body + 15 } }
  else r

/-- The documents the loop hands to the body analyzer: the `html` fields of
the non-attachment `text/html` leaves, in walk order. -/
def htmlLeaves (parts : List Part) : List HtmlDoc :=
  (parts.filter
    (fun p => ¬ (p.contentDisposition = some "attachment") ∧ p.contentType = "text/html")).map
    (·.html)

/-- `f` appends a fixed batch of body findings and adds a fixed body score,
independent of the incoming results (the batch is read off at
`emptyResults`). -/
def BodyDelta (f : Results → Results) : Prop :=
  ∀ r : Results,
    (f r).body = r.body ++ (f emptyResults).body ∧
    (f r).riskScores.body = r.riskScores.body + (f emptyResults).riskScores.body

/-! ## Characterization helpers and concrete inputs used by the theorems -/

/-- Did the search find a token other than `pass` for this mechanism? -/
def failedAuth (authResults mech : String) : Bool :=
  match authToken mech authResults with
  | some tok => pyLower tok ≠ "pass"
  | none => false

/-- A message whose only header is `Authentication-Results: SPF=fail`
(upper-case mechanism name). -/
def msgAuthUpper : Message := ⟨[("Authentication-Results", "SPF=fail")], []⟩

/-- A message with a single Received header containing one IPv4 literal. -/
def msgOneReceived : Message :=
  ⟨[("Received", "from mail.example.com ([203.0.113.5])")], []⟩

/-- An anchor whose href points at `http://example.com/` with empty visible
text; `parsed` is `urlparse(unquote("http://example.com/"))`. -/
def exampleAnchor : Anchor :=
  ⟨"http://example.com/", "", some ⟨"http", some "example.com", "/", ""⟩⟩

/-- An HTML body holding five links to the same hostname. -/
def fiveLinkDoc : HtmlDoc := ⟨"", List.replicate 5 exampleAnchor, [], [], 0⟩

/-- An HTML document whose only feature is one script element. -/
def scriptDoc : HtmlDoc := ⟨"", [], [], [], 1⟩

/-- A bare (non-attachment) `text/html` leaf part. -/
def htmlLeaf (d : HtmlDoc) : Part := ⟨"text/html", none, none, none, d⟩

/-- `urlparse(unquote("http://192.168.1.1/a/b/c/d?redirect=1"))`. -/
def scenarioCUrl : UrlParts := ⟨"http", some "192.168.1.1", "/a/b/c/d", "redirect=1"⟩

/-! # Theorems -/

/-! ## Shared segment lemmas for `analyze_headers` -/

theorem analyze_headers_header (m : Message) (r : Results) :
    (analyze_headers m r).header =
      r.header ++ baseHeaderFindings m ++ (returnPathSegment m).1 ++ (replyToSegment m).1 ++
        (receivedSegment m).1 ++ ipSegment m ++
        (authSegment ((m.get "Authentication-Results").getD "")).1 := rfl

theorem returnPathSegment_item {m : Message} {f : Finding}
    (h : f ∈ (returnPathSegment m).1) : f.item = "From/Return-Path 불일치" := by
  unfold returnPathSegment at h
  rcases hg : get_email_address (m.get "Return-Path") with _ | rp <;> rw [hg] at h
  · simp at h
  · dsimp only at h
    split at h <;> simp_all

theorem replyToSegment_item {m : Message} {f : Finding}
    (h : f ∈ (replyToSegment m).1) : f.item = "From/Reply-To 불일치" := by
  unfold replyToSegment at h
  rcases hg : get_email_address (m.get "Reply-To") with _ | rt <;> rw [hg] at h
  · simp at h
  · dsimp only at h
    split at h <;> simp_all

theorem receivedSegment_item {m : Message} {f : Finding}
    (h : f ∈ (receivedSegment m).1) : f.item = "메일 서버 경로" := by
  by_cases hc : (m.get_all "Received").length > 5
  · simp only [receivedSegment, if_pos hc, List.mem_singleton] at h
    rw [h]
  · simp only [receivedSegment, if_neg hc, List.not_mem_nil] at h

theorem ipSegment_item {m : Message} {f : Finding}
    (h : f ∈ ipSegment m) : f.item = "경유 IP 주소" := by
  unfold ipSegment at h
  split at h <;> simp_all

theorem authStep_item (a mech : String) :
    ((authStep a mech).1).item = pyUpper mech ++ " 인증" := by
  unfold authStep
  rcases authToken mech a with _ | tok
  · rfl
  · dsimp only
    split <;> rfl

theorem authSegment_eq (a : String) :
    authSegment a =
      ([(authStep a "spf").1, (authStep a "dkim").1, (authStep a "dmarc").1],
        (authStep a "spf").2 + (authStep a "dkim").2 + (authStep a "dmarc").2) := by
  simp [authSegment]

theorem authSegment_item {a : String} {f : Finding}
    (h : f ∈ (authSegment a).1) :
    f.item = "SPF 인증" ∨ f.item = "DKIM 인증" ∨ f.item = "DMARC 인증" := by
  rw [authSegment_eq] at h
  simp only [List.mem_cons, List.not_mem_nil, or_false] at h
  rcases h with h | h | h <;> subst h <;> rw [authStep_item] <;> decide

theorem baseHeaderFindings_item {m : Message} {f : Finding}
    (h : f ∈ baseHeaderFindings m) :
    f.item = "발신자 (From)" ∨ f.item = "수신자 (To)" ∨ f.item = "제목 (Subject)" ∨
      f.item = "메일 클라이언트 (X-Mailer)" := by
  simp only [baseHeaderFindings, List.mem_cons, List.not_mem_nil, or_false] at h
  rcases h with h | h | h | h <;> subst h <;> simp

theorem mem_header_iff (m : Message) (f : Finding) :
    f ∈ (analyze_headers m emptyResults).header ↔
      f ∈ baseHeaderFindings m ∨ f ∈ (returnPathSegment m).1 ∨ f ∈ (replyToSegment m).1 ∨
        f ∈ (receivedSegment m).1 ∨ f ∈ ipSegment m ∨
        f ∈ (authSegment ((m.get "Authentication-Results").getD "")).1 := by
  rw [analyze_headers_header]
  simp [emptyResults, List.mem_append, or_assoc]

/-- The status and value of one mechanism's finding, as a function of the
token the (case-sensitive) search finds. -/
theorem authStep_sv (a mech : String) :
    (((authStep a mech).1).status, ((authStep a mech).1).value) =
      (match authToken mech a with
       | some tok =>
         if pyLower tok = "pass" then ("safe", "성공 (pass)")
         else ("danger", "실패 (" ++ pyLower tok ++ ")")
       | none => ("info", "결과 없음")) := by
  unfold authStep
  rcases authToken mech a with _ | tok
  · rfl
  · dsimp only
    by_cases h : pyLower tok = "pass" <;> simp [h]

theorem authStep_score (a mech : String) :
    (authStep a mech).2 = if failedAuth a mech then 20 else 0 := by
  unfold authStep failedAuth
  rcases authToken mech a with _ | tok
  · rfl
  · dsimp only
    by_cases h : pyLower tok = "pass" <;> simp [h]

/-- Every non-auth segment of the header findings has an item different from
`target`, so filtering the run's header findings by such an item reduces to
filtering the authentication segment. -/
theorem header_filter_by_item (m : Message) (target : String)
    (h1 : "발신자 (From)" ≠ target) (h2 : "수신자 (To)" ≠ target)
    (h3 : "제목 (Subject)" ≠ target) (h4 : "메일 클라이언트 (X-Mailer)" ≠ target)
    (h5 : "From/Return-Path 불일치" ≠ target) (h6 : "From/Reply-To 불일치" ≠ target)
    (h7 : "메일 서버 경로" ≠ target) (h8 : "경유 IP 주소" ≠ target) :
    (analyze_headers m emptyResults).header.filter (fun f => f.item = target) =
      (authSegment ((m.get "Authentication-Results").getD "")).1.filter
        (fun f => f.item = target) := by
  have hb : (baseHeaderFindings m).filter (fun f => f.item = target) = [] := by
    rw [List.filter_eq_nil_iff]
    intro f hf
    rcases baseHeaderFindings_item hf with h | h | h | h <;> simp [h, h1, h2, h3, h4]
  have hrp : ((returnPathSegment m).1).filter (fun f => f.item = target) = [] := by
    rw [List.filter_eq_nil_iff]
    intro f hf
    simp [returnPathSegment_item hf, h5]
  have hrt : ((replyToSegment m).1).filter (fun f => f.item = target) = [] := by
    rw [List.filter_eq_nil_iff]
    intro f hf
    simp [replyToSegment_item hf, h6]
  have hrecv : ((receivedSegment m).1).filter (fun f => f.item = target) = [] := by
    rw [List.filter_eq_nil_iff]
    intro f hf
    simp [receivedSegment_item hf, h7]
  have hip : (ipSegment m).filter (fun f => f.item = target) = [] := by
    rw [List.filter_eq_nil_iff]
    intro f hf
    simp [ipSegment_item hf, h8]
  rw [analyze_headers_header]
  simp only [List.filter_append, emptyResults, List.filter_nil, List.nil_append,
    hb, hrp, hrt, hrecv, hip]

/-! ## C1 -/

/-- C1: the summary's total score is `min(100, header + body + attachments +
urls)`, the level is `높음` ("high") when the total is ≥ 70, `주의`
("caution") when ≥ 40, `낮음` ("low") when ≥ 10 and `안전` ("safe")
otherwise, each with its fixed message, and the whole summary is a pure
function of the four category scores. -/
theorem C1_summary_classification (r : Results) :
    (calculate_summary r).summary.totalScore =
      min 100 (r.riskScores.header + r.riskScores.body + r.riskScores.attachments +
        r.riskScores.urls) ∧
    ((calculate_summary r).summary.level, (calculate_summary r).summary.message) =
      (if min 100 (r.riskScores.header + r.riskScores.body + r.riskScores.attachments +
            r.riskScores.urls) ≥ 70 then
        ("높음", "매우 위험한 피싱 이메일일 가능성이 높습니다. 즉시 삭제하세요.")
      else if min 100 (r.riskScores.header + r.riskScores.body + r.riskScores.attachments +
            r.riskScores.urls) ≥ 40 then
        ("주의", "여러 위험 요소가 발견되었습니다. 링크 클릭 및 첨부파일 실행에 각별히 주의하세요.")
      else if min 100 (r.riskScores.header + r.riskScores.body + r.riskScores.attachments +
            r.riskScores.urls) ≥ 10 then
        ("낮음", "일부 의심스러운 점이 있으나, 직접적인 위협은 낮아 보입니다. 주의해서 확인하세요.")
      else ("안전", "특별한 위협이 탐지되지 않았습니다.")) ∧
    (∀ r₂ : Results, r₂.riskScores = r.riskScores →
      (calculate_summary r₂).summary = (calculate_summary r).summary) := by
  refine ⟨?_, ?_, ?_⟩
  · unfold calculate_summary
    dsimp only
    split_ifs <;> rfl
  · unfold calculate_summary
    dsimp only
    split_ifs <;> rfl
  · intro r₂ h
    unfold calculate_summary
    rw [h]

/-- C1 witness: two results with equal scores but different findings get the
same summary. -/
theorem C1_summary_classification_witness :
    (calculate_summary { emptyResults with header := [⟨"x", "y", "info"⟩] }).summary =
      (calculate_summary emptyResults).summary :=
  (C1_summary_classification emptyResults).2.2
    { emptyResults with header := [⟨"x", "y", "info"⟩] } rfl

/-! ## C2 -/

/-- C2 (code bug): the run-scoped duplicate check on lines 264-267 compares
the bare hostname against entries of the form `Domain: <hostname>`
(`value.split(' - ')[0]`), which can never be equal, so a body with five
links to `example.com` yields five `URL 도메인` findings for that hostname
and adds the +10 non-HTTPS risk five times, contrary to the dedup the
comment `중복 방지` and the spec describe. -/
theorem C2_dedup_never_fires :
    (analyze_html_body fiveLinkDoc emptyResults).urls =
      List.replicate 5
        ⟨"URL 도메인", "Domain: example.com - <span class=\"status-safe\">(HTTPS 미사용)</span>",
          "safe"⟩ ∧
    (analyze_html_body fiveLinkDoc emptyResults).riskScores.urls = 50 := by
  constructor <;> rfl

/-! ## C3 -/

/-- C3 (counterexample): analyzing the empty message raises nothing but the
header category is not empty — `analyze_headers` always emits its seven
informational findings — so "all four finding categories are empty" fails. -/
theorem C3_header_not_empty :
    (analyze (fun _ => "") (fun _ => "") (fun _ => .err) (fun _ => .err) (fun _ => .err)
      emptyMessage).header ≠ [] := by decide

/-- C3 (amended): analyzing a contentless message returns a complete result —
body, attachments and urls empty, the header category holding exactly the
seven zero-score informational findings, and a `안전` ("safe") summary with
total score 0 — rather than raising. -/
theorem C3_empty_message_safe (sha : List Nat → String) (fmtKB : Nat → String)
    (wapi : String → ApiResult WhoisInfo) (vapi fapi : String → ApiResult VtReport) :
    (analyze sha fmtKB wapi vapi fapi emptyMessage).body = [] ∧
    (analyze sha fmtKB wapi vapi fapi emptyMessage).attachments = [] ∧
    (analyze sha fmtKB wapi vapi fapi emptyMessage).urls = [] ∧
    (analyze sha fmtKB wapi vapi fapi emptyMessage).header =
      [⟨"발신자 (From)", "", "info"⟩, ⟨"수신자 (To)", "", "info"⟩,
       ⟨"제목 (Subject)", "", "info"⟩, ⟨"메일 클라이언트 (X-Mailer)", "N/A", "info"⟩,
       ⟨"SPF 인증", "결과 없음", "info"⟩, ⟨"DKIM 인증", "결과 없음", "info"⟩,
       ⟨"DMARC 인증", "결과 없음", "info"⟩] ∧
    (analyze sha fmtKB wapi vapi fapi emptyMessage).summary =
      ⟨0, "안전", "특별한 위협이 탐지되지 않았습니다."⟩ :=
  ⟨rfl, rfl, rfl, rfl, rfl⟩

/-! ## C4 -/

/-- C4: an attachment named `invoice.pdf.exe` declared `application/pdf`
whose payload starts with the bytes `4d 5a` gets a single `danger` attachment
finding annotated with both the executable-extension and double-extension
notes (the double-extension rule raises the local risk to `max(30, 20) = 30`
rather than adding), plus a separate `danger` MIME-mismatch finding worth
+40, for a category delta of exactly 70 ≥ 70. -/
theorem C4_invoice_pdf_exe (sha : List Nat → String) (fmtKB : Nat → String)
    (rest : List Nat) :
    (analyze_attachment sha fmtKB
      ⟨"application/pdf", some "attachment", some "invoice.pdf.exe",
        some (0x4d :: 0x5a :: rest), emptyDoc⟩ emptyResults).attachments =
      [⟨"첨부파일", "파일: invoice.pdf.exe (실행 파일 의심) (이중 확장자 의심)", "danger"⟩,
       ⟨"파일 크기", fmtKB (rest.length + 2), "info"⟩,
       ⟨"파일 해시 (SHA-256)", sha (0x4d :: 0x5a :: rest), "info"⟩,
       ⟨"MIME 타입 불일치", "선언된 파일 형식과 실제 형식이 다를 수 있습니다.", "danger"⟩] ∧
    (analyze_attachment sha fmtKB
      ⟨"application/pdf", some "attachment", some "invoice.pdf.exe",
        some (0x4d :: 0x5a :: rest), emptyDoc⟩ emptyResults).riskScores.attachments = 70 :=
  ⟨rfl, rfl⟩

/-! ## C5 -/

/-- C5 (counterexample): the search pattern `rf'{auth_type}=(\w+)'` is
case-sensitive, so a header `Authentication-Results: SPF=fail` is not found:
the spf finding is the `info` "결과 없음" one with +0, not the `danger` one
the claim's case-insensitive reading requires. -/
theorem C5_upper_case_not_matched :
    (analyze_headers msgAuthUpper emptyResults).header =
      [⟨"발신자 (From)", "", "info"⟩, ⟨"수신자 (To)", "", "info"⟩,
       ⟨"제목 (Subject)", "", "info"⟩, ⟨"메일 클라이언트 (X-Mailer)", "N/A", "info"⟩,
       ⟨"SPF 인증", "결과 없음", "info"⟩, ⟨"DKIM 인증", "결과 없음", "info"⟩,
       ⟨"DMARC 인증", "결과 없음", "info"⟩] ∧
    (analyze_headers msgAuthUpper emptyResults).riskScores.header = 0 :=
  ⟨rfl, rfl⟩

/-- C5 (amended): for each mechanism the analyzer searches
Authentication-Results for the lowercase `<mechanism>=<token>` pattern
case-SENSITIVELY (`authToken` embeds the `re.search` semantics), lowercases
the token, and appends exactly one finding per mechanism per run — the run's
header findings filtered by that mechanism's item are exactly the one
finding produced by `authStep`, whose status/value are `danger`/`실패` when a
token other than `pass` is found, `safe`/`성공 (pass)` when the token is
`pass`, and `info`/`결과 없음` when there is no match — and the header score
gains exactly 20 per mechanism whose token was found and differs from
`pass`. -/
theorem C5_auth_per_mechanism (m : Message) :
    ((analyze_headers m emptyResults).header.filter
        (fun f => f.item = pyUpper "spf" ++ " 인증") =
      [(authStep ((m.get "Authentication-Results").getD "") "spf").1]) ∧
    ((analyze_headers m emptyResults).header.filter
        (fun f => f.item = pyUpper "dkim" ++ " 인증") =
      [(authStep ((m.get "Authentication-Results").getD "") "dkim").1]) ∧
    ((analyze_headers m emptyResults).header.filter
        (fun f => f.item = pyUpper "dmarc" ++ " 인증") =
      [(authStep ((m.get "Authentication-Results").getD "") "dmarc").1]) ∧
    (∀ a mech : String,
      (((authStep a mech).1).status, ((authStep a mech).1).value) =
        (match authToken mech a with
         | some tok =>
           if pyLower tok = "pass" then ("safe", "성공 (pass)")
           else ("danger", "실패 (" ++ pyLower tok ++ ")")
         | none => ("info", "결과 없음"))) ∧
    (analyze_headers m emptyResults).riskScores.header =
      (returnPathSegment m).2 + (replyToSegment m).2 + (receivedSegment m).2 +
        20 * ((["spf", "dkim", "dmarc"].filter
          (fun mech => failedAuth ((m.get "Authentication-Results").getD "") mech)).length) := by
  have hfilter : ∀ mech : String, mech = "spf" ∨ mech = "dkim" ∨ mech = "dmarc" →
      (analyze_headers m emptyResults).header.filter
          (fun f => f.item = pyUpper mech ++ " 인증") =
        (authSegment ((m.get "Authentication-Results").getD "")).1.filter
          (fun f => f.item = pyUpper mech ++ " 인증") := by
    intro mech hm
    rcases hm with h | h | h <;> subst h <;>
      exact header_filter_by_item m _ (by decide) (by decide) (by decide) (by decide)
        (by decide) (by decide) (by decide) (by decide)
  refine ⟨?_, ?_, ?_, fun a mech => authStep_sv a mech, ?_⟩
  · rw [hfilter "spf" (Or.inl rfl), authSegment_eq]
    dsimp only
    rw [List.filter_cons_of_pos (by rw [authStep_item]; simp),
      List.filter_cons_of_neg (by rw [authStep_item]; decide),
      List.filter_cons_of_neg (by rw [authStep_item]; decide), List.filter_nil]
  · rw [hfilter "dkim" (Or.inr (Or.inl rfl)), authSegment_eq]
    dsimp only
    rw [List.filter_cons_of_neg (by rw [authStep_item]; decide),
      List.filter_cons_of_pos (by rw [authStep_item]; simp),
      List.filter_cons_of_neg (by rw [authStep_item]; decide), List.filter_nil]
  · rw [hfilter "dmarc" (Or.inr (Or.inr rfl)), authSegment_eq]
    dsimp only
    rw [List.filter_cons_of_neg (by rw [authStep_item]; decide),
      List.filter_cons_of_neg (by rw [authStep_item]; decide),
      List.filter_cons_of_pos (by rw [authStep_item]; simp), List.filter_nil]
  · have hsc : (analyze_headers m emptyResults).riskScores.header =
        0 + (returnPathSegment m).2 + (replyToSegment m).2 + (receivedSegment m).2 +
          (authSegment ((m.get "Authentication-Results").getD "")).2 := rfl
    have hauth : (authSegment ((m.get "Authentication-Results").getD "")).2 =
        20 * ((["spf", "dkim", "dmarc"].filter
          (fun mech => failedAuth ((m.get "Authentication-Results").getD "") mech)).length) := by
      rw [authSegment_eq]
      dsimp only
      rw [authStep_score, authStep_score, authStep_score]
      cases h1 : failedAuth ((m.get "Authentication-Results").getD "") "spf" <;>
        cases h2 : failedAuth ((m.get "Authentication-Results").getD "") "dkim" <;>
        cases h3 : failedAuth ((m.get "Authentication-Results").getD "") "dmarc" <;>
        simp [h1, h2, h3]
    rw [hsc, hauth]
    omega

/-! ## C7 -/

/-- `analyze_attachment` never touches the body category. -/
theorem analyze_attachment_body (sha : List Nat → String) (fmtKB : Nat → String)
    (p : Part) (r : Results) :
    (analyze_attachment sha fmtKB p r).body = r.body ∧
      (analyze_attachment sha fmtKB p r).riskScores.body = r.riskScores.body := by
  unfold analyze_attachment
  rcases p.filename with _ | fn
  · exact ⟨rfl, rfl⟩
  · dsimp only
    split
    · exact ⟨rfl, rfl⟩
    · rcases p.payload with _ | payload
      · exact ⟨rfl, rfl⟩
      · dsimp only
        split
        · exact ⟨rfl, rfl⟩
        · split <;> exact ⟨rfl, rfl⟩

/-- `analyze_url` never touches the body category. -/
theorem analyze_url_keeps_body (url : String) (parsed : Option UrlParts) (r : Results) :
    (analyze_url url parsed r).body = r.body ∧
      (analyze_url url parsed r).riskScores.body = r.riskScores.body := by
  unfold analyze_url
  split
  · exact ⟨rfl, rfl⟩
  · rcases parsed with _ | u
    · exact ⟨rfl, rfl⟩
    · dsimp only
      rcases hu : u.hostname with _ | h
      · exact ⟨rfl, rfl⟩
      · dsimp only
        split
        · exact ⟨rfl, rfl⟩
        · split <;> exact ⟨rfl, rfl⟩

theorem analyze_url_body_eq (url : String) (parsed : Option UrlParts) (r : Results) :
    (analyze_url url parsed r).body = r.body :=
  (analyze_url_keeps_body url parsed r).1

theorem analyze_url_riskBody_eq (url : String) (parsed : Option UrlParts) (r : Results) :
    (analyze_url url parsed r).riskScores.body = r.riskScores.body :=
  (analyze_url_keeps_body url parsed r).2

theorem bodyDelta_comp {f g : Results → Results} (hf : BodyDelta f) (hg : BodyDelta g) :
    BodyDelta (fun r => g (f r)) := by
  intro r
  obtain ⟨hf1, hf2⟩ := hf r
  obtain ⟨hg1, hg2⟩ := hg (f r)
  obtain ⟨hg1e, hg2e⟩ := hg (f emptyResults)
  constructor
  · rw [hg1, hf1, hg1e, List.append_assoc]
  · rw [hg2, hf2, hg2e]
    omega

theorem bodyDelta_foldl {α : Type} (step : Results → α → Results)
    (h : ∀ a, BodyDelta (fun r => step r a)) :
    ∀ l : List α, BodyDelta (fun r => l.foldl step r) := by
  intro l
  induction l with
  | nil =>
    intro r
    constructor <;> simp [emptyResults]
  | cons a as ih =>
    exact bodyDelta_comp (h a) ih

theorem keywordStage_delta (doc : HtmlDoc) : BodyDelta (keywordStage doc) := by
  intro r
  unfold keywordStage
  dsimp only
  split_ifs <;> constructor <;> simp [emptyResults]

theorem anchorStep_delta (a : Anchor) : BodyDelta (fun r => anchorStep r a) := by
  intro r
  unfold anchorStep
  dsimp only
  simp only [analyze_url_body_eq, analyze_url_riskBody_eq]
  split_ifs <;> constructor <;> simp [emptyResults]

theorem anchorsStage_delta (doc : HtmlDoc) : BodyDelta (anchorsStage doc) :=
  bodyDelta_foldl anchorStep anchorStep_delta doc.anchors

theorem imageStep_delta (img : HtmlImage) : BodyDelta (fun r => imageStep r img) := by
  intro r
  unfold imageStep
  split_ifs <;> constructor <;> simp [emptyResults]

theorem imagesStage_delta (doc : HtmlDoc) : BodyDelta (imagesStage doc) :=
  bodyDelta_foldl imageStep imageStep_delta doc.images

theorem hiddenStep_delta (el : HiddenElem) : BodyDelta (fun r => hiddenStep r el) := by
  intro r
  unfold hiddenStep
  split_ifs <;> constructor <;> simp [emptyResults]

theorem hiddenStage_delta (doc : HtmlDoc) : BodyDelta (hiddenStage doc) :=
  bodyDelta_foldl hiddenStep hiddenStep_delta doc.hidden

theorem scriptsStage_delta (doc : HtmlDoc) : BodyDelta (scriptsStage doc) := by
  intro r
  unfold scriptsStage
  split_ifs <;> constructor <;> simp [emptyResults]

/-- The sequential `let`s of `analyze_html_body` compose the five stages. -/
theorem analyze_html_body_stages (doc : HtmlDoc) (r : Results) :
    analyze_html_body doc r =
      scriptsStage doc (hiddenStage doc (imagesStage doc
        (anchorsStage doc (keywordStage doc r)))) := rfl

/-- The body analyzer appends a batch of body findings and a body score that
depend only on the document. -/
theorem analyze_html_body_delta (doc : HtmlDoc) : BodyDelta (analyze_html_body doc) := by
  have h : BodyDelta (fun r =>
      scriptsStage doc (hiddenStage doc (imagesStage doc
        (anchorsStage doc (keywordStage doc r))))) :=
    bodyDelta_comp (bodyDelta_comp (bodyDelta_comp
      (bodyDelta_comp (keywordStage_delta doc) (anchorsStage_delta doc))
      (imagesStage_delta doc)) (hiddenStage_delta doc)) (scriptsStage_delta doc)
  intro r
  rw [analyze_html_body_stages, analyze_html_body_stages]
  exact h r

/-- One loop step appends body findings/score depending only on the part:
nothing for attachments and other leaves, the document's batch for a
non-attachment `text/html` leaf. -/
theorem partStep_delta (sha : List Nat → String) (fmtKB : Nat → String) (p : Part) :
    BodyDelta (fun r => partStep sha fmtKB r p) := by
  intro r
  unfold partStep
  by_cases hd : p.contentDisposition = some "attachment"
  · simp only [if_pos hd]
    obtain ⟨h1, h2⟩ := analyze_attachment_body sha fmtKB p r
    obtain ⟨h3, h4⟩ := analyze_attachment_body sha fmtKB p emptyResults
    constructor
    · rw [h1, h3]; simp [emptyResults]
    · rw [h2, h4]; simp [emptyResults]
  · by_cases hct : p.contentType = "text/html"
    · simp only [if_neg hd, if_pos hct]
      exact analyze_html_body_delta p.html r
    · simp only [if_neg hd, if_neg hct]
      constructor <;> simp [emptyResults]

/-- Starting from the fresh results, the loop's body findings are exactly the
concatenation, over every non-attachment `text/html` leaf in walk order, of
that document's batch, and likewise for the body score. -/
theorem foldl_partStep_empty (sha : List Nat → String) (fmtKB : Nat → String) :
    ∀ ps : List Part,
      (ps.foldl (partStep sha fmtKB) emptyResults).body =
        (htmlLeaves ps).flatMap (fun d => (analyze_html_body d emptyResults).body) ∧
      (ps.foldl (partStep sha fmtKB) emptyResults).riskScores.body =
        ((htmlLeaves ps).map
          (fun d => (analyze_html_body d emptyResults).riskScores.body)).sum := by
  intro ps
  induction ps with
  | nil => exact ⟨rfl, rfl⟩
  | cons p ps ih =>
    obtain ⟨hb, hr⟩ :=
      (bodyDelta_foldl (partStep sha fmtKB) (partStep_delta sha fmtKB) ps)
        (partStep sha fmtKB emptyResults p)
    rw [List.foldl_cons]
    by_cases hd : p.contentDisposition = some "attachment"
    · have hpb : (partStep sha fmtKB emptyResults p).body = [] := by
        simp only [partStep, if_pos hd]
        exact (analyze_attachment_body sha fmtKB p emptyResults).1
      have hps : (partStep sha fmtKB emptyResults p).riskScores.body = 0 := by
        simp only [partStep, if_pos hd]
        exact (analyze_attachment_body sha fmtKB p emptyResults).2
      have hl : htmlLeaves (p :: ps) = htmlLeaves ps := by
        simp [htmlLeaves, hd]
      constructor
      · rw [hb, hpb, hl, ih.1]
        simp
      · rw [hr, hps, hl, ih.2]
        simp
    · by_cases hct : p.contentType = "text/html"
      · have hpb : (partStep sha fmtKB emptyResults p).body =
            (analyze_html_body p.html emptyResults).body := by
          simp only [partStep, if_neg hd, if_pos hct]
        have hps : (partStep sha fmtKB emptyResults p).riskScores.body =
            (analyze_html_body p.html emptyResults).riskScores.body := by
          simp only [partStep, if_neg hd, if_pos hct]
        have hl : htmlLeaves (p :: ps) = p.html :: htmlLeaves ps := by
          simp [htmlLeaves, hd, hct]
        constructor
        · rw [hb, hpb, hl, ih.1, List.flatMap_cons]
        · rw [hr, hps, hl, ih.2, List.map_cons, List.sum_cons]
      · have hpb : (partStep sha fmtKB emptyResults p).body = [] := by
          simp only [partStep, if_neg hd, if_neg hct]
          rfl
        have hps : (partStep sha fmtKB emptyResults p).riskScores.body = 0 := by
          simp only [partStep, if_neg hd, if_neg hct]
          rfl
        have hl : htmlLeaves (p :: ps) = htmlLeaves ps := by
          simp [htmlLeaves, hd, hct]
        constructor
        · rw [hb, hpb, hl, ih.1]
          simp
        · rw [hr, hps, hl, ih.2]
          simp

/-- C7 (counterexample): a message with two `text/html` leaf parts, each
holding one script element, gets the Javascript warning twice and +30 body
score — both parts are consumed, not only the first. -/
theorem C7_both_html_parts_analyzed :
    (processParts (fun _ => "") (fun _ => "")
      [htmlLeaf scriptDoc, htmlLeaf scriptDoc] emptyResults).body =
      [⟨"Javascript 포함", "메일 본문에 스크립트가 포함되어 있습니다.", "warn"⟩,
       ⟨"Javascript 포함", "메일 본문에 스크립트가 포함되어 있습니다.", "warn"⟩] ∧
    (processParts (fun _ => "") (fun _ => "")
      [htmlLeaf scriptDoc, htmlLeaf scriptDoc] emptyResults).riskScores.body = 30 :=
  ⟨rfl, rfl⟩

/-- C7 (amended): the part loop feeds every non-attachment `text/html` leaf
part to the body analyzer, in walk order: for any part list — html parts in
any number, interleaved with attachments and other leaves — the body findings
are the incoming ones followed by the concatenation of each such part's
batch, and the body score grows by the sum of their scores; with no such part
the body category receives no findings and no score, and the same holds for a
whole run over `analyzeBase`. -/
theorem C7_every_html_part (sha : List Nat → String) (fmtKB : Nat → String) :
    (∀ (parts : List Part) (r : Results),
      (processParts sha fmtKB parts r).body =
        r.body ++ (htmlLeaves parts).flatMap
          (fun d => (analyze_html_body d emptyResults).body) ∧
      (processParts sha fmtKB parts r).riskScores.body =
        r.riskScores.body + ((htmlLeaves parts).map
          (fun d => (analyze_html_body d emptyResults).riskScores.body)).sum) ∧
    (∀ msg : Message,
      (analyzeBase sha fmtKB msg).body =
        (htmlLeaves msg.parts).flatMap
          (fun d => (analyze_html_body d emptyResults).body) ∧
      (analyzeBase sha fmtKB msg).riskScores.body =
        ((htmlLeaves msg.parts).map
          (fun d => (analyze_html_body d emptyResults).riskScores.body)).sum) := by
  have hmain : ∀ (parts : List Part) (r : Results),
      (processParts sha fmtKB parts r).body =
        r.body ++ (htmlLeaves parts).flatMap
          (fun d => (analyze_html_body d emptyResults).body) ∧
      (processParts sha fmtKB parts r).riskScores.body =
        r.riskScores.body + ((htmlLeaves parts).map
          (fun d => (analyze_html_body d emptyResults).riskScores.body)).sum := by
    intro parts r
    obtain ⟨hb, hr⟩ :=
      (bodyDelta_foldl (partStep sha fmtKB) (partStep_delta sha fmtKB) parts) r
    obtain ⟨he1, he2⟩ := foldl_partStep_empty sha fmtKB parts
    constructor
    · show (parts.foldl (partStep sha fmtKB) r).body = _
      rw [hb, he1]
    · show (parts.foldl (partStep sha fmtKB) r).riskScores.body = _
      rw [hr, he2]
  refine ⟨hmain, fun msg => ?_⟩
  obtain ⟨h1, h2⟩ := hmain msg.parts (analyze_headers msg emptyResults)
  have hhb : (analyze_headers msg emptyResults).body = [] := rfl
  have hhs : (analyze_headers msg emptyResults).riskScores.body = 0 := rfl
  constructor
  · show (processParts sha fmtKB msg.parts (analyze_headers msg emptyResults)).body = _
    rw [h1, hhb, List.nil_append]
  · show (processParts sha fmtKB msg.parts
      (analyze_headers msg emptyResults)).riskScores.body = _
    rw [h2, hhs, Nat.zero_add]

/-! ## C6 -/

/-- C6: analyzing `http://192.168.1.1/a/b/c/d?redirect=1` as the run's only
URL adds exactly 75 (= 40 IP-literal + 10 non-HTTPS + 15 deep path + 10
suspicious parameter) to the urls score and emits one `danger` finding for
the hostname. -/
theorem C6_scenario_c :
    (analyze_url "http://192.168.1.1/a/b/c/d?redirect=1" (some scenarioCUrl)
        emptyResults).urls =
      [⟨"URL 도메인",
        "Domain: 192.168.1.1 - <span class=\"status-danger\">(IP 주소 직접 사용, HTTPS 미사용, 복잡한 URL 경로 구조, 의심스러운 파라미터)</span>",
        "danger"⟩] ∧
    (analyze_url "http://192.168.1.1/a/b/c/d?redirect=1" (some scenarioCUrl)
        emptyResults).riskScores.urls = 75 ∧
    urlStatus 75 = "danger" :=
  ⟨rfl, rfl, rfl⟩

/-! ## C8 -/

/-- C8 (counterexample): a message with a single Received header containing
an IPv4 literal still gets the `경유 IP 주소` info finding — the route-IP
listing is not gated on the count exceeding 5, so "a message with 5 or fewer
Received headers triggers neither" fails. -/
theorem C8_ip_listing_not_gated :
    (analyze_headers msgOneReceived emptyResults).header =
      [⟨"발신자 (From)", "", "info"⟩, ⟨"수신자 (To)", "", "info"⟩,
       ⟨"제목 (Subject)", "", "info"⟩, ⟨"메일 클라이언트 (X-Mailer)", "N/A", "info"⟩,
       ⟨"경유 IP 주소", "203.0.113.5", "info"⟩,
       ⟨"SPF 인증", "결과 없음", "info"⟩, ⟨"DKIM 인증", "결과 없음", "info"⟩,
       ⟨"DMARC 인증", "결과 없음", "info"⟩] ∧
    (msgOneReceived.get_all "Received").length = 1 ∧
    (analyze_headers msgOneReceived emptyResults).riskScores.header = 0 :=
  ⟨rfl, rfl, rfl⟩

/-- C8 (amended): the `warn` +10 route finding appears exactly when the
Received count exceeds 5; independently of the count, the `info` finding
listing every IPv4 literal of the Received headers (in discovery order,
joined by " → ") appears exactly when at least one such literal exists, and
that is its value. -/
theorem C8_received_heuristics (m : Message) :
    ((∃ f ∈ (analyze_headers m emptyResults).header, f.item = "메일 서버 경로") ↔
      (m.get_all "Received").length > 5) ∧
    ((∃ f ∈ (analyze_headers m emptyResults).header, f.item = "경유 IP 주소") ↔
      pathIPs m ≠ []) ∧
    (∀ f ∈ (analyze_headers m emptyResults).header, f.item = "경유 IP 주소" →
      f.value = pyJoin " → " (pathIPs m)) ∧
    ((receivedSegment m).2 = if (m.get_all "Received").length > 5 then 10 else 0) := by
  refine ⟨⟨?_, ?_⟩, ⟨?_, ?_⟩, ?_, ?_⟩
  · rintro ⟨f, hf, hitem⟩
    rcases (mem_header_iff m f).mp hf with h | h | h | h | h | h
    · rcases baseHeaderFindings_item h with h' | h' | h' | h' <;> rw [h'] at hitem <;>
        exact absurd hitem (by decide)
    · rw [returnPathSegment_item h] at hitem; exact absurd hitem (by decide)
    · rw [replyToSegment_item h] at hitem; exact absurd hitem (by decide)
    · by_cases hc : (m.get_all "Received").length > 5
      · exact hc
      · simp only [receivedSegment, if_neg hc, List.not_mem_nil] at h
    · rw [ipSegment_item h] at hitem; exact absurd hitem (by decide)
    · rcases authSegment_item h with h' | h' | h' <;> rw [h'] at hitem <;>
        exact absurd hitem (by decide)
  · intro hc
    refine ⟨⟨"메일 서버 경로",
      "경유 서버가 " ++ toString (m.get_all "Received").length ++ "개로 많습니다.", "warn"⟩,
      ?_, rfl⟩
    exact (mem_header_iff m _).mpr (Or.inr (Or.inr (Or.inr (Or.inl
      (by simp only [receivedSegment, if_pos hc, List.mem_singleton])))))
  · rintro ⟨f, hf, hitem⟩
    rcases (mem_header_iff m f).mp hf with h | h | h | h | h | h
    · rcases baseHeaderFindings_item h with h' | h' | h' | h' <;> rw [h'] at hitem <;>
        exact absurd hitem (by decide)
    · rw [returnPathSegment_item h] at hitem; exact absurd hitem (by decide)
    · rw [replyToSegment_item h] at hitem; exact absurd hitem (by decide)
    · rw [receivedSegment_item h] at hitem; exact absurd hitem (by decide)
    · by_cases hc : pathIPs m ≠ []
      · exact hc
      · simp only [ipSegment, if_neg hc, List.not_mem_nil] at h
    · rcases authSegment_item h with h' | h' | h' <;> rw [h'] at hitem <;>
        exact absurd hitem (by decide)
  · intro hc
    refine ⟨⟨"경유 IP 주소", pyJoin " → " (pathIPs m), "info"⟩, ?_, rfl⟩
    exact (mem_header_iff m _).mpr (Or.inr (Or.inr (Or.inr (Or.inr (Or.inl
      (by simp only [ipSegment, if_pos hc, List.mem_singleton]))))))
  · intro f hf hitem
    rcases (mem_header_iff m f).mp hf with h | h | h | h | h | h
    · rcases baseHeaderFindings_item h with h' | h' | h' | h' <;> rw [h'] at hitem <;>
        exact absurd hitem (by decide)
    · rw [returnPathSegment_item h] at hitem; exact absurd hitem (by decide)
    · rw [replyToSegment_item h] at hitem; exact absurd hitem (by decide)
    · rw [receivedSegment_item h] at hitem; exact absurd hitem (by decide)
    · by_cases hc : pathIPs m ≠ []
      · simp only [ipSegment, if_pos hc, List.mem_singleton] at h
        rw [h]
      · simp only [ipSegment, if_neg hc, List.not_mem_nil] at h
    · rcases authSegment_item h with h' | h' | h' <;> rw [h'] at hitem <;>
        exact absurd hitem (by decide)
  · by_cases hc : (m.get_all "Received").length > 5
    · simp only [receivedSegment, if_pos hc]
    · simp only [receivedSegment, if_neg hc]

/-- C8 witness: the amended theorem applied to the one-Received-header
message pins the IP-listing finding's value. -/
theorem C8_received_heuristics_witness :
    (Finding.mk "경유 IP 주소" "203.0.113.5" "info").value =
      pyJoin " → " (pathIPs msgOneReceived) :=
  (C8_received_heuristics msgOneReceived).2.2.1
    ⟨"경유 IP 주소", "203.0.113.5", "info"⟩ (by decide) (by decide)

/-! ## C9 -/

theorem whoisFindings_err {wapi : String → ApiResult WhoisInfo} {h : String}
    (hw : wapi h = .err) : whoisFindings wapi h = ([], 0) := by
  unfold whoisFindings get_domain_info_from_api
  by_cases hh : pyTruthyS h
  · simp [hh, hw]
  · simp [hh]

theorem vtDomainFindings_err {vapi : String → ApiResult VtReport} {h : String}
    (hv : vapi h = .err) : vtDomainFindings vapi h = ([], 0) := by
  unfold vtDomainFindings get_vt_report_from_api
  by_cases hh : pyTruthyS h
  · simp [hh, hv]
  · simp [hh]

theorem vtFileFindings_err {fapi : String → ApiResult VtReport} {k : String}
    (hf : fapi k = .err) : vtFileFindings fapi k = ([], 0) := by
  unfold vtFileFindings get_vt_report_from_api
  by_cases hh : pyTruthyS k
  · simp [hh, hf]
  · simp [hh]

theorem domainRep_all_err (hs : List String) :
    get_domain_reputation_findings (fun _ => .err) (fun _ => .err) hs = ([], 0) := by
  have : ∀ (l : List String) (acc : List Finding × Nat),
      l.foldl
        (fun acc hostname =>
          let wf := whoisFindings (fun _ => .err) hostname
          let vf := vtDomainFindings (fun _ => .err) hostname
          (acc.1 ++ wf.1 ++ vf.1, acc.2 + wf.2 + vf.2)) acc = acc := by
    intro l
    induction l with
    | nil => exact fun _ => rfl
    | cons x xs ih =>
      intro acc
      rw [List.foldl_cons]
      rw [show (let wf := whoisFindings (fun _ => .err) x
          let vf := vtDomainFindings (fun _ => .err) x
          (acc.1 ++ wf.1 ++ vf.1, acc.2 + wf.2 + vf.2)) = acc by
        rw [whoisFindings_err rfl, vtDomainFindings_err rfl]; simp]
      exact ih acc
  exact this hs ([], 0)

theorem fileRep_all_err (hashes : List String) :
    get_file_reputation_findings (fun _ => .err) hashes = ([], 0) := by
  have : ∀ (l : List String) (acc : List Finding × Nat),
      l.foldl
        (fun acc h =>
          let vf := vtFileFindings (fun _ => .err) h
          (acc.1 ++ vf.1, acc.2 + vf.2)) acc = acc := by
    intro l
    induction l with
    | nil => exact fun _ => rfl
    | cons x xs ih =>
      intro acc
      rw [List.foldl_cons]
      rw [show (let vf := vtFileFindings (fun _ => .err) x
          (acc.1 ++ vf.1, acc.2 + vf.2)) = acc by
        rw [vtFileFindings_err rfl]; simp]
      exact ih acc
  exact this hashes ([], 0)

theorem results_id_urls (r : Results) :
    ({ r with
        urls := r.urls ++ []
        riskScores := { r.riskScores with urls := r.riskScores.urls + 0 } }) = r := by
  cases r with
  | mk h b a u rs s => cases rs; simp

theorem results_id_attachments (r : Results) :
    ({ r with
        attachments := r.attachments ++ []
        riskScores := { r.riskScores with attachments := r.riskScores.attachments + 0 } }) = r := by
  cases r with
  | mk h b a u rs s => cases rs; simp

theorem results_id_both (r : Results) :
    ({ r with
        attachments := r.attachments ++ []
        urls := r.urls ++ []
        riskScores := { r.riskScores with
          attachments := r.riskScores.attachments + 0
          urls := r.riskScores.urls + 0 } }) = r := by
  cases r with
  | mk h b a u rs s => cases rs; simp

/-- C9: a reputation lookup that fails (modelled by the `.err` outcome the
source's `except` blocks convert to `None`) contributes no finding and no
score for that key, the other keys are processed unchanged, and with every
lookup failing the whole run returns the complete base analysis with its
summary — urls/attachments findings and scores unaffected. -/
theorem C9_failed_lookup_contributes_nothing
    (wapi : String → ApiResult WhoisInfo) (vapi fapi : String → ApiResult VtReport)
    (hs hashes : List String) (h k : String)
    (sha : List Nat → String) (fmtKB : Nat → String) (msg : Message)
    (hw : wapi h = .err) (hv : vapi h = .err) (hf : fapi k = .err) :
    get_domain_reputation_findings wapi vapi (h :: hs) =
      get_domain_reputation_findings wapi vapi hs ∧
    get_file_reputation_findings fapi (k :: hashes) =
      get_file_reputation_findings fapi hashes ∧
    analyze sha fmtKB (fun _ => .err) (fun _ => .err) (fun _ => .err) msg =
      calculate_summary (analyzeBase sha fmtKB msg) := by
  refine ⟨?_, ?_, ?_⟩
  · unfold get_domain_reputation_findings
    rw [List.foldl_cons]
    rw [show (let wf := whoisFindings wapi h
        let vf := vtDomainFindings vapi h
        ((([] : List Finding), (0 : Nat)).1 ++ wf.1 ++ vf.1,
          (([] : List Finding), (0 : Nat)).2 + wf.2 + vf.2)) = (([] : List Finding), (0 : Nat)) by
      rw [whoisFindings_err hw, vtDomainFindings_err hv]; simp]
  · unfold get_file_reputation_findings
    rw [List.foldl_cons]
    rw [show (let vf := vtFileFindings fapi k
        ((([] : List Finding), (0 : Nat)).1 ++ vf.1,
          (([] : List Finding), (0 : Nat)).2 + vf.2)) = (([] : List Finding), (0 : Nat)) by
      rw [vtFileFindings_err hf]; simp]
  · unfold analyze
    dsimp only
    simp only [domainRep_all_err, fileRep_all_err]
    split_ifs <;> simp only [results_id_urls, results_id_attachments, results_id_both]

/-- C9 witness: concrete failing lookups around the empty message. -/
theorem C9_failed_lookup_contributes_nothing_witness :
    get_domain_reputation_findings (fun _ => .err) (fun _ => .err) ["a.com"] =
      get_domain_reputation_findings (fun _ => .err) (fun _ => .err) [] ∧
    get_file_reputation_findings (fun _ => .err) ["deadbeef"] =
      get_file_reputation_findings (fun _ => .err) [] ∧
    analyze (fun _ => "") (fun _ => "") (fun _ => .err) (fun _ => .err) (fun _ => .err)
        emptyMessage =
      calculate_summary (analyzeBase (fun _ => "") (fun _ => "") emptyMessage) :=
  C9_failed_lookup_contributes_nothing (fun _ => .err) (fun _ => .err) (fun _ => .err)
    [] [] "a.com" "deadbeef" (fun _ => "") (fun _ => "") emptyMessage rfl rfl rfl

/-! ## C10 -/

/-- C10: the From/Return-Path and From/Reply-To mismatch heuristics fire only
when both compared values are present and truthy: a missing Return-Path (or
Reply-To) makes its segment contribute no finding and no score (the pair
`([], 0)`), and no mismatch finding of that kind appears anywhere in the
run's header findings; a missing From disables both heuristics. -/
theorem C10_mismatch_needs_both_headers (m : Message) :
    (m.get "Return-Path" = none →
      returnPathSegment m = ([], 0) ∧
      ¬ ∃ f ∈ (analyze_headers m emptyResults).header,
          f.item = "From/Return-Path 불일치") ∧
    (m.get "Reply-To" = none →
      replyToSegment m = ([], 0) ∧
      ¬ ∃ f ∈ (analyze_headers m emptyResults).header,
          f.item = "From/Reply-To 불일치") ∧
    (m.get "From" = none →
      returnPathSegment m = ([], 0) ∧ replyToSegment m = ([], 0)) := by
  have hrpmem : returnPathSegment m = ([], 0) →
      ¬ ∃ f ∈ (analyze_headers m emptyResults).header, f.item = "From/Return-Path 불일치" := by
    rintro hz ⟨f, hf, hitem⟩
    rcases (mem_header_iff m f).mp hf with h | h | h | h | h | h
    · rcases baseHeaderFindings_item h with h' | h' | h' | h' <;> rw [h'] at hitem <;>
        exact absurd hitem (by decide)
    · rw [hz] at h; exact (List.not_mem_nil f) h
    · rw [replyToSegment_item h] at hitem; exact absurd hitem (by decide)
    · rw [receivedSegment_item h] at hitem; exact absurd hitem (by decide)
    · rw [ipSegment_item h] at hitem; exact absurd hitem (by decide)
    · rcases authSegment_item h with h' | h' | h' <;> rw [h'] at hitem <;>
        exact absurd hitem (by decide)
  have hrtmem : replyToSegment m = ([], 0) →
      ¬ ∃ f ∈ (analyze_headers m emptyResults).header, f.item = "From/Reply-To 불일치" := by
    rintro hz ⟨f, hf, hitem⟩
    rcases (mem_header_iff m f).mp hf with h | h | h | h | h | h
    · rcases baseHeaderFindings_item h with h' | h' | h' | h' <;> rw [h'] at hitem <;>
        exact absurd hitem (by decide)
    · rw [returnPathSegment_item h] at hitem; exact absurd hitem (by decide)
    · rw [hz] at h; exact (List.not_mem_nil f) h
    · rw [receivedSegment_item h] at hitem; exact absurd hitem (by decide)
    · rw [ipSegment_item h] at hitem; exact absurd hitem (by decide)
    · rcases authSegment_item h with h' | h' | h' <;> rw [h'] at hitem <;>
        exact absurd hitem (by decide)
  refine ⟨?_, ?_, ?_⟩
  · intro h
    have hz : returnPathSegment m = ([], 0) := by
      unfold returnPathSegment
      rw [h]
      rfl
    exact ⟨hz, hrpmem hz⟩
  · intro h
    have hz : replyToSegment m = ([], 0) := by
      unfold replyToSegment
      rw [h]
      rfl
    exact ⟨hz, hrtmem hz⟩
  · intro h
    have hfe : fromEmail m = "" := by
      unfold fromEmail
      rw [h]
      rfl
    constructor
    · unfold returnPathSegment
      rw [hfe]
      rcases get_email_address (m.get "Return-Path") with _ | rp
      · rfl
      · simp [pyTruthyS]
    · unfold replyToSegment
      rw [hfe]
      rcases get_email_address (m.get "Reply-To") with _ | rt
      · rfl
      · simp [pyTruthyS]

/-- C10 witness: the empty message lacks all three headers; neither mismatch
segment contributes anything. -/
theorem C10_mismatch_needs_both_headers_witness :
    returnPathSegment emptyMessage = ([], 0) ∧ replyToSegment emptyMessage = ([], 0) :=
  ⟨((C10_mismatch_needs_both_headers emptyMessage).1 rfl).1,
   ((C10_mismatch_needs_both_headers emptyMessage).2.1 rfl).1⟩

end MailAnalysis
